import Mathlib

/-!
Shallow embedding of `pytest_tornado/plugin.py` and proofs about it.

The plugin dispatches asynchronous (tornado) test bodies on a per-test
event loop under a configurable deadline.  Pure pieces of the plugin
(timeout resolution, argument introspection, fixture projections, the
setup hook) are embedded as Lean functions; the event-loop pieces
(`with_timeout`, the `run_sync=False` dispatch branch, fixture
finalizers) are embedded as explicit state machines whose events
defunctionalize the callbacks the source registers on the loop.
-/

namespace PytestTornado

/-! ### Python values

Decimal numbers are kept structurally, as `mant * 10 ^ exp`; the claims
only ever select and propagate these values, never compute with them,
so a structural representation is faithful.
-/

/-- Value of a finite Python float literal: `mant * 10 ^ exp`. -/
structure Dec where
  mant : ℤ
  exp : ℤ
deriving DecidableEq, Repr

/-- Intended numeric meaning of a `Dec` (documentation only). -/
def Dec.toRat (d : Dec) : ℚ := (d.mant : ℚ) * (10 : ℚ) ^ d.exp

/-- Subset of Python values that flow through the plugin: `None`,
numbers, booleans and strings. -/
inductive PyVal where
  | pyNone
  | num (d : Dec)
  | bool (b : Bool)
  | str (s : String)
deriving DecidableEq, Repr

/-- Association-list lookup, first binding wins (Python dicts have
unique keys, so the list form is faithful). -/
def lookupKey (d : List (String × PyVal)) (k : String) : Option PyVal :=
  match d with
  | [] => none
  | p :: rest => if p.1 = k then some p.2 else lookupKey rest k

/-- Python `dict.get(k, dflt)`: stored value when the key is present
(even when that value is `None`), else the default. -/
def dictGet (d : List (String × PyVal)) (k : String) (dflt : PyVal) : PyVal :=
  (lookupKey d k).getD dflt

/-! ### Python `float()` on strings

Model of CPython `float(s)` for finite decimal literals: surrounding
whitespace is stripped; an optional sign is followed by digits with an
optional decimal point and an optional exponent.  (`inf`/`nan` spellings
and digit-group underscores are outside the model; the claims only need
the empty/unparseable-versus-parseable distinction.)  `none` models the
`ValueError` the source catches.
-/

/-- Longest prefix of decimal digits: accumulated value, digit count,
remaining characters. -/
def takeDigits : List Char → ℕ → ℕ → ℕ × ℕ × List Char
  | [], acc, n => (acc, n, [])
  | c :: cs, acc, n =>
    if c.isDigit then takeDigits cs (acc * 10 + (c.toNat - 48)) (n + 1)
    else (acc, n, c :: cs)

/-- Optional leading sign; `true` means negative. -/
def parseSign : List Char → Bool × List Char
  | '-' :: cs => (true, cs)
  | '+' :: cs => (false, cs)
  | cs => (false, cs)

/-- After the mantissa: either end of input, or an exponent marker with
a signed digit run consuming the whole rest.  Returns the exponent. -/
def parseExpTail : List Char → Option ℤ
  | [] => some 0
  | c :: cs =>
    if c = 'e' ∨ c = 'E' then
      match parseSign cs with
      | (neg, cs2) =>
        match takeDigits cs2 0 0 with
        | (v, n, rest) =>
          if n = 0 ∨ rest ≠ [] then none
          else some (if neg then -(v : ℤ) else (v : ℤ))
    else none

/-- Unsigned magnitude `digits [. digits] [exponent]`; at least one
digit must be present.  Returns mantissa and power-of-ten exponent. -/
def parseMagnitude (cs : List Char) : Option (ℕ × ℤ) :=
  match takeDigits cs 0 0 with
  | (ip, ni, cs1) =>
    match cs1 with
    | '.' :: cs2 =>
      match takeDigits cs2 0 0 with
      | (fp, nf, cs3) =>
        if ni = 0 ∧ nf = 0 then none
        else
          match parseExpTail cs3 with
          | none => none
          | some e => some (ip * 10 ^ nf + fp, e - (nf : ℤ))
    | _ =>
      if ni = 0 then none
      else
        match parseExpTail cs1 with
        | none => none
        | some e => some (ip, e)

/-- Whitespace stripped from both ends, as `float()` does. -/
def stripWs (cs : List Char) : List Char :=
  ((cs.dropWhile Char.isWhitespace).reverse.dropWhile Char.isWhitespace).reverse

/-- CPython `float(s)` for finite decimal literals (`none` = `ValueError`). -/
def pyFloat (s : String) : Option Dec :=
  match parseSign (stripWs s.data) with
  | (neg, cs1) =>
    (parseMagnitude cs1).map fun p =>
      { mant := if neg then -(p.1 : ℤ) else (p.1 : ℤ), exp := p.2 }

/-! ### Global default timeout

`_get_async_test_timeout` wraps `float(os.environ.get('ASYNC_TEST_TIMEOUT'))`
in `try/except (ValueError, TypeError)`.  An unset variable makes
`environ.get` return `None`, so `float(None)` raises `TypeError`; an
empty or unparseable string raises `ValueError`; both paths return `5`.
-/

/-- Embeds `_get_async_test_timeout()`; `env` is the current value of
the `ASYNC_TEST_TIMEOUT` environment variable. -/
def _get_async_test_timeout (env : Option String) : Dec :=
  match env with
  | none => { mant := 5, exp := 0 }
  | some s =>
    match pyFloat s with
    | none => { mant := 5, exp := 0 }
    | some v => v

/-- Configuration state the option layer hands to the fixtures: the
`--async-test-timeout` CLI value when explicitly passed, and the
environment variable backing the option's default. -/
structure Config where
  cliAsyncTestTimeout : Option Dec
  envAsyncTestTimeout : Option String
deriving DecidableEq, Repr

/-- Embeds `config.getoption('async_test_timeout')`: the explicit CLI
value if given, else the default registered by `pytest_addoption`,
which is `_get_async_test_timeout()`. -/
def getoption_async_test_timeout (cfg : Config) : Dec :=
  cfg.cliAsyncTestTimeout.getD (_get_async_test_timeout cfg.envAsyncTestTimeout)

/-- Embeds the `async_test_timeout` fixture body: it returns the
configured option value.  (A test suite may override the whole fixture;
`_async_test_timeout_` below takes the fixture's value as an input.) -/
def async_test_timeout (cfg : Config) : Dec :=
  getoption_async_test_timeout cfg

/-- A `gen_test` marker: its keyword arguments. -/
structure Marker where
  kwargs : List (String × PyVal)
deriving DecidableEq, Repr

/-- Embeds the `_async_test_timeout_` fixture body: with a `gen_test`
marker present it returns `marker.kwargs.get('timeout', async_test_timeout)`,
else the `async_test_timeout` fixture value. -/
def _async_test_timeout_ (gen_test : Option Marker) (async_test_timeout : PyVal) : PyVal :=
  match gen_test with
  | some m => dictGet m.kwargs "timeout" async_test_timeout
  | none => async_test_timeout

/-! ### Argument introspection -/

/-- Result of `inspect.getargspec`: positional parameter names and the
default values of the trailing parameters.  For a bound method the
`args` list still includes the receiver (`getfullargspec` does not skip
the bound argument). -/
structure ArgSpec where
  args : List String
  defaults : List PyVal
deriving DecidableEq, Repr

/-- The two callable shapes `_argnames` distinguishes:
`isinstance(func, types.FunctionType)` versus a bound method. -/
inductive Callable where
  | function (spec : ArgSpec)
  | boundMethod (spec : ArgSpec)
deriving DecidableEq, Repr

/-- The `inspect.getargspec` view of a callable. -/
def Callable.spec : Callable → ArgSpec
  | .function s => s
  | .boundMethod s => s

/-- Embeds `_argnames`: with a nonempty defaults tuple it returns
`spec.args[:-len(spec.defaults)]`; else all args for a plain function,
and `args[1:]` for a bound method. -/
def _argnames (func : Callable) : List String :=
  let spec := func.spec
  if spec.defaults ≠ [] then
    spec.args.take (spec.args.length - spec.defaults.length)
  else
    match func with
    | .function _ => spec.args
    | .boundMethod _ => spec.args.drop 1

/-! ### The per-test setup hook -/

/-- The parts of a collected test item the setup hook touches. -/
structure Item where
  keywords : List String
  fixturenames : List String
deriving DecidableEq, Repr

/-- Embeds `pytest_runtest_setup`: on a `gen_test`-marked item, append
`'io_loop'` and `'_async_test_timeout_'` to `item.fixturenames`, each
only when not already present; unmarked items are untouched. -/
def pytest_runtest_setup (item : Item) : Item :=
  if "gen_test" ∈ item.keywords then
    let f1 :=
      if "io_loop" ∈ item.fixturenames then item.fixturenames
      else item.fixturenames ++ ["io_loop"]
    let f2 :=
      if "_async_test_timeout_" ∈ f1 then f1
      else f1 ++ ["_async_test_timeout_"]
    { item with fixturenames := f2 }
  else item

/-! ### The fallback timeout primitive

`with_timeout(timeout, future)` (the tornado-3 fallback) builds a result
future, chains the input future into it, schedules a one-shot timer that
sets a `TimeoutError` on the result future, and registers a done
callback on the input future that removes the timer.  The loop's
callback behaviour is defunctionalized into a state machine: a
`settleInput` event runs the input future's done callbacks (the
`chain_future` copy — which skips an already-done target — followed by
`remove_timeout`), and a `fireTimer` event runs the timer callback,
possible only while the timer is still registered.
-/

/-- Failures a future can hold. -/
inductive Err where
  | timeoutError (msg : String)
  | exn (code : ℕ)
deriving DecidableEq, Repr

/-- A settled future's content: a value or a raised failure. -/
inductive Outcome where
  | ok (v : PyVal)
  | err (e : Err)
deriving DecidableEq, Repr

/-- Joint state of the input future, the result future and the timeout
timer inside `with_timeout`. -/
structure WTState where
  inputDone : Option Outcome
  resultDone : Option Outcome
  timerRegistered : Bool
  timerDeadline : Dec
deriving DecidableEq, Repr

/-- Loop events that can touch a `with_timeout` state. -/
inductive WTEvent where
  | settleInput (o : Outcome)
  | fireTimer
deriving DecidableEq, Repr

/-- One loop event.  `settleInput o` settles a still-pending input
future and runs its done callbacks in registration order: the
`chain_future` copy (skipped when the result future is already done)
and then `remove_timeout`.  `fireTimer` runs the registered timer's
callback `result.set_exception(TimeoutError("Timeout"))` and consumes
the one-shot timer.  `none` means the event cannot occur. -/
def wtStep (s : WTState) : WTEvent → Option WTState
  | .settleInput o =>
    if s.inputDone.isSome then none
    else
      some { s with
        inputDone := some o
        resultDone := if s.resultDone.isSome then s.resultDone else some o
        timerRegistered := false }
  | .fireTimer =>
    if s.timerRegistered then
      some { s with
        resultDone := some (.err (.timeoutError "Timeout"))
        timerRegistered := false }
    else none

/-- Embeds the call `with_timeout(timeout, future)`: a fresh pending
result future chained to the input, and the timeout timer registered
for `timeout`.  When the input future is already done at call time, its
done callbacks run immediately (result settled, timer removed). -/
def with_timeout (timeout : Dec) (inputDone : Option Outcome) : WTState :=
  match inputDone with
  | none =>
    { inputDone := none, resultDone := none,
      timerRegistered := true, timerDeadline := timeout }
  | some o =>
    { inputDone := some o, resultDone := some o,
      timerRegistered := false, timerDeadline := timeout }

/-- Run a sequence of loop events; an impossible event is a stutter. -/
def runWT (s : WTState) : List WTEvent → WTState
  | [] => s
  | e :: es => runWT ((wtStep s e).getD s) es

/-! ### The `run_sync=False` dispatch branch

`pytest_pyfunc_call` with `run_sync=False` wraps the body's future with
`with_timeout`, registers `add_future(future_with_timeout, lambda f:
io_loop.stop())`, calls `io_loop.start()` and, once the loop has
stopped, calls `future_with_timeout.result()`, re-raising any held
failure.  The stop continuation becomes a dedicated event that is
possible only once the bounded future has settled.
-/

/-- Embeds `run_sync = gen_test_mark.kwargs.get('run_sync', True)`. -/
def run_sync_value (kwargs : List (String × PyVal)) : PyVal :=
  dictGet kwargs "run_sync" (.bool true)

/-- Joint state of the bounded future and the running loop in the
`run_sync=False` branch. -/
structure BState where
  wt : WTState
  running : Bool
deriving DecidableEq, Repr

/-- Loop events in the `run_sync=False` branch: the `with_timeout`
events plus the registered stop continuation. -/
inductive BEvent where
  | loopEvent (e : WTEvent)
  | stopCallback
deriving DecidableEq, Repr

/-- One loop event: future/timer activity passes through `wtStep`; the
stop continuation registered with `add_future` can run only after the
bounded future has settled, and stops the running loop. -/
def bStep (s : BState) : BEvent → Option BState
  | .loopEvent e => (wtStep s.wt e).map fun w => { s with wt := w }
  | .stopCallback =>
    if s.wt.resultDone.isSome = true ∧ s.running = true then
      some { s with running := false }
    else none

/-- Run a sequence of events; an impossible event is a stutter. -/
def runB (s : BState) : List BEvent → BState
  | [] => s
  | e :: es => runB ((bStep s e).getD s) es

/-- Embeds the `run_sync=False` branch of `pytest_pyfunc_call` up to
`io_loop.start()`: the pending body future wrapped by `with_timeout`
with the resolved deadline, stop continuation registered, loop started. -/
def pytest_pyfunc_call_run_sync_false (deadline : Dec) : BState :=
  { wt := with_timeout deadline none, running := true }

/-- The test's outcome read after the loop stops:
`future_with_timeout.result()` re-raises any failure the bounded future
holds.  While the loop is still running no outcome has been read. -/
def modeB_result (deadline : Dec) (es : List BEvent) : Option Outcome :=
  let f := runB (pytest_pyfunc_call_run_sync_false deadline) es
  if f.running then none else f.wt.resultDone

/-! ### Loop and client fixture teardown -/

/-- The loop-related process state the fixtures touch: the installed
current loop, the global singleton (`IOLoop.instance()`, present iff
`IOLoop.initialized()`), and which loops have been closed with
`all_fds=True`.  Loops are named by numeric identities. -/
structure LoopWorld where
  currentLoop : Option ℕ
  singletonLoop : Option ℕ
  closedLoops : List ℕ
deriving DecidableEq, Repr

/-- Embeds the `io_loop` fixture body: construct a fresh loop and
`make_current()` it. -/
def io_loop_fixture (newLoop : ℕ) (w : LoopWorld) : ℕ × LoopWorld :=
  (newLoop, { w with currentLoop := some newLoop })

/-- Embeds the `io_loop` fixture's `_close` finalizer:
`clear_current()` first, then `close(all_fds=True)` unless
`IOLoop.initialized()` holds and `IOLoop.instance()` is this very
loop. -/
def io_loop_finalizer (io_loop : ℕ) (w : LoopWorld) : LoopWorld :=
  let w1 : LoopWorld := { w with currentLoop := none }
  if w1.singletonLoop.isSome = false ∨ w1.singletonLoop ≠ some io_loop then
    { w1 with closedLoops := io_loop :: w1.closedLoops }
  else w1

/-- An `AsyncHTTPClient`: the loop it is bound to, and whether
`close()` has run. -/
structure HTTPClient where
  io_loop : ℕ
  closed : Bool
deriving DecidableEq, Repr

/-- Embeds the `http_client` fixture body:
`AsyncHTTPClient(io_loop=http_server.io_loop)`. -/
def http_client_fixture (serverLoop : ℕ) : HTTPClient :=
  { io_loop := serverLoop, closed := false }

/-- Embeds the `http_client` fixture's `_close` finalizer: close the
client unless `IOLoop.initialized()` holds and `IOLoop.instance()` is
the client's loop. -/
def http_client_finalizer (client : HTTPClient) (singletonLoop : Option ℕ) : HTTPClient :=
  if singletonLoop.isSome = false ∨ singletonLoop ≠ some client.io_loop then
    { client with closed := true }
  else client

/-! ### Port fixtures -/

/-- Embeds the `http_port` fixture: `_unused_port[1]` on the
`(socket, port)` pair from `tornado.testing.bind_unused_port()`. -/
def http_port (_unused_port : ℕ × ℕ) : ℕ :=
  _unused_port.2

/-- Embeds the `base_url` fixture: `'http://localhost:%s' % http_port`. -/
def base_url (http_port : ℕ) : String :=
  "http://localhost:" ++ toString http_port

/-! ### Helper lemmas on the timeout machines -/

/-- After any successful `with_timeout` loop event the timer is gone:
`settleInput` runs `remove_timeout`, `fireTimer` consumes the one-shot
timer. -/
theorem wtStep_timer_off {s t : WTState} {e : WTEvent} (h : wtStep s e = some t) :
    t.timerRegistered = false := by
  cases e with
  | settleInput o =>
    simp only [wtStep] at h
    split at h
    · exact Option.noConfusion h
    · simp only [Option.some.injEq] at h
      subst h
      rfl
  | fireTimer =>
    simp only [wtStep] at h
    split at h
    · simp only [Option.some.injEq] at h
      subst h
      rfl
    · exact Option.noConfusion h

/-- A settled result future never becomes pending again. -/
theorem wtStep_resultDone_mono {s t : WTState} {e : WTEvent} (h : wtStep s e = some t)
    (hr : s.resultDone.isSome = true) : t.resultDone.isSome = true := by
  cases e with
  | settleInput o =>
    simp only [wtStep] at h
    split at h
    · exact Option.noConfusion h
    · simp only [Option.some.injEq] at h
      subst h
      simp [hr]
  | fireTimer =>
    simp only [wtStep] at h
    split at h
    · simp only [Option.some.injEq] at h
      subst h
      simp
    · exact Option.noConfusion h

/-- Once the input future has settled, the timer stays unregistered
along every event sequence. -/
theorem runWT_settled_timer_off (es : List WTEvent) (s : WTState)
    (h : s.inputDone.isSome = true → s.timerRegistered = false) :
    (runWT s es).inputDone.isSome = true → (runWT s es).timerRegistered = false := by
  induction es generalizing s with
  | nil => exact h
  | cons e es ih =>
    simp only [runWT]
    cases he : wtStep s e with
    | none => simpa only [Option.getD_none] using ih s h
    | some t => simpa only [Option.getD_some] using ih t fun _ => wtStep_timer_off he

/-- One `run_sync=False` loop event preserves "stopped only after the
bounded future settled". -/
theorem bStep_inv {s t : BState} {e : BEvent} (h : bStep s e = some t)
    (hs : s.running = false → s.wt.resultDone.isSome = true) :
    t.running = false → t.wt.resultDone.isSome = true := by
  cases e with
  | loopEvent e =>
    simp only [bStep, Option.map_eq_some'] at h
    obtain ⟨w, hw, rfl⟩ := h
    intro hr
    exact wtStep_resultDone_mono hw (hs hr)
  | stopCallback =>
    simp only [bStep] at h
    split at h
    · rename_i hg
      simp only [Option.some.injEq] at h
      subst h
      intro _
      exact hg.1
    · exact Option.noConfusion h

/-- Along every event sequence, the loop is stopped only after the
bounded future has settled. -/
theorem runB_inv (es : List BEvent) (s : BState)
    (h : s.running = false → s.wt.resultDone.isSome = true) :
    (runB s es).running = false → (runB s es).wt.resultDone.isSome = true := by
  induction es generalizing s with
  | nil => exact h
  | cons e es ih =>
    simp only [runB]
    cases he : bStep s e with
    | none => simpa only [Option.getD_none] using ih s h
    | some t => simpa only [Option.getD_some] using ih t (bStep_inv he h)

/-! ### Helper lemmas on the setup hook -/

/-- The setup hook never touches the keyword set. -/
theorem pytest_runtest_setup_keywords (item : Item) :
    (pytest_runtest_setup item).keywords = item.keywords := by
  simp only [pytest_runtest_setup]
  split <;> rfl

/-- On a marked item whose fixture list already holds both injected
names, the setup hook is the identity. -/
theorem pytest_runtest_setup_of_mem {item : Item} (hk : "gen_test" ∈ item.keywords)
    (h1 : "io_loop" ∈ item.fixturenames)
    (h2 : "_async_test_timeout_" ∈ item.fixturenames) :
    pytest_runtest_setup item = item := by
  simp [pytest_runtest_setup, hk, h1, h2]

/-- After the setup hook runs on a marked item, both injected names are
present in the fixture list. -/
theorem pytest_runtest_setup_mem {item : Item} (hk : "gen_test" ∈ item.keywords) :
    "io_loop" ∈ (pytest_runtest_setup item).fixturenames ∧
    "_async_test_timeout_" ∈ (pytest_runtest_setup item).fixturenames := by
  by_cases h1 : "io_loop" ∈ item.fixturenames <;>
    by_cases h2 : "_async_test_timeout_" ∈ item.fixturenames <;>
      simp [pytest_runtest_setup, hk, h1, h2]

/-! ### Claim theorems -/

/-- C1: for a marked test the dispatch deadline is resolved with this
precedence: the marker's `timeout` keyword when the key is given, else
the `async_test_timeout` fixture's value; the un-overridden fixture
returns the configured `--async-test-timeout` option, whose value is
the explicit CLI value when passed and otherwise the option default
`_get_async_test_timeout()`, which parses the `ASYNC_TEST_TIMEOUT`
environment variable as a float and falls back to the hard-coded 5. -/
theorem deadline_resolution_precedence
    (kwargs : List (String × PyVal)) (fixtureVal : PyVal) (cfg : Config) :
    (∀ v, lookupKey kwargs "timeout" = some v →
      _async_test_timeout_ (some { kwargs := kwargs }) fixtureVal = v)
    ∧ (lookupKey kwargs "timeout" = none →
      _async_test_timeout_ (some { kwargs := kwargs }) fixtureVal = fixtureVal)
    ∧ (∀ d, cfg.cliAsyncTestTimeout = some d → async_test_timeout cfg = d)
    ∧ (cfg.cliAsyncTestTimeout = none →
      async_test_timeout cfg = _get_async_test_timeout cfg.envAsyncTestTimeout)
    ∧ (cfg.envAsyncTestTimeout = none →
      _get_async_test_timeout cfg.envAsyncTestTimeout = { mant := 5, exp := 0 })
    ∧ (∀ s d, cfg.envAsyncTestTimeout = some s → pyFloat s = some d →
      _get_async_test_timeout cfg.envAsyncTestTimeout = d)
    ∧ (∀ s, cfg.envAsyncTestTimeout = some s → pyFloat s = none →
      _get_async_test_timeout cfg.envAsyncTestTimeout = { mant := 5, exp := 0 }) := by
  refine ⟨?_, ?_, ?_, ?_, ?_, ?_, ?_⟩
  · intro v hv
    simp [_async_test_timeout_, dictGet, hv]
  · intro hv
    simp [_async_test_timeout_, dictGet, hv]
  · intro d hd
    simp [async_test_timeout, getoption_async_test_timeout, hd]
  · intro hd
    simp [async_test_timeout, getoption_async_test_timeout, hd]
  · intro he
    simp [_get_async_test_timeout, he]
  · intro s d hs hp
    simp [_get_async_test_timeout, hs, hp]
  · intro s hs hp
    simp [_get_async_test_timeout, hs, hp]

/-- Witness for C1 at concrete inputs: a marker `timeout=1` wins over
the fixture value, and with no CLI value the configured option comes
from parsing `ASYNC_TEST_TIMEOUT="2.5"`. -/
theorem deadline_resolution_precedence_witness :
    _async_test_timeout_ (some { kwargs := [("timeout", PyVal.num { mant := 1, exp := 0 })] })
      (PyVal.num { mant := 5, exp := 0 }) = PyVal.num { mant := 1, exp := 0 }
    ∧ async_test_timeout { cliAsyncTestTimeout := none, envAsyncTestTimeout := some "2.5" } =
      { mant := 25, exp := -1 } :=
  ⟨(deadline_resolution_precedence [("timeout", PyVal.num { mant := 1, exp := 0 })]
      (PyVal.num { mant := 5, exp := 0 })
      { cliAsyncTestTimeout := none, envAsyncTestTimeout := some "2.5" }).1
      (PyVal.num { mant := 1, exp := 0 }) (by decide),
   by
    have h := (deadline_resolution_precedence [] PyVal.pyNone
      { cliAsyncTestTimeout := none, envAsyncTestTimeout := some "2.5" })
    rw [h.2.2.2.1 rfl]
    exact h.2.2.2.2.2.1 "2.5" { mant := 25, exp := -1 } rfl (by decide)⟩

/-- C2 (failing evaluation): on a bound method that has a defaulted
parameter, `_argnames` runs the defaults branch first and returns
`args[:-len(defaults)]`, which still contains the implicit receiver
`"self"` — the receiver is not excluded, contradicting the claim. -/
theorem argnames_bound_method_keeps_receiver :
    _argnames (Callable.boundMethod
      { args := ["self", "a", "b"], defaults := [PyVal.num { mant := 1, exp := 0 }] }) =
      ["self", "a"]
    ∧ "self" ∈ _argnames (Callable.boundMethod
      { args := ["self", "a", "b"], defaults := [PyVal.num { mant := 1, exp := 0 }] }) := by
  decide

/-- C8: when the marker's kwargs bind `timeout` to `None`, the resolved
deadline is that `None` itself — `dict.get` keys on presence, not
non-nullness — and the fixture fallback applies only when the key is
absent. -/
theorem timeout_none_still_overrides
    (kwargs : List (String × PyVal)) (fixtureVal : PyVal) :
    (lookupKey kwargs "timeout" = some PyVal.pyNone →
      _async_test_timeout_ (some { kwargs := kwargs }) fixtureVal = PyVal.pyNone)
    ∧ (lookupKey kwargs "timeout" = none →
      _async_test_timeout_ (some { kwargs := kwargs }) fixtureVal = fixtureVal) := by
  constructor
  · intro hv
    simp [_async_test_timeout_, dictGet, hv]
  · intro hv
    simp [_async_test_timeout_, dictGet, hv]

/-- Witness for C8: `gen_test(timeout=None)` resolves to `None` even
though the fixture value is 5. -/
theorem timeout_none_still_overrides_witness :
    _async_test_timeout_ (some { kwargs := [("timeout", PyVal.pyNone)] })
      (PyVal.num { mant := 5, exp := 0 }) = PyVal.pyNone :=
  (timeout_none_still_overrides [("timeout", PyVal.pyNone)]
    (PyVal.num { mant := 5, exp := 0 })).1 (by decide)

/-- C9: `_get_async_test_timeout` is a total function of the
environment: an unset variable (where `float(None)` raises
`TypeError`), the empty string, or any unparseable string yields 5,
and a parseable string yields its parsed float value. -/
theorem get_async_test_timeout_total (env : Option String) :
    (env = none → _get_async_test_timeout env = { mant := 5, exp := 0 })
    ∧ (∀ s, env = some s → pyFloat s = none →
      _get_async_test_timeout env = { mant := 5, exp := 0 })
    ∧ (∀ s d, env = some s → pyFloat s = some d → _get_async_test_timeout env = d)
    ∧ pyFloat "" = none := by
  refine ⟨?_, ?_, ?_, by decide⟩
  · intro he
    simp [_get_async_test_timeout, he]
  · intro s hs hp
    simp [_get_async_test_timeout, hs, hp]
  · intro s d hs hp
    simp [_get_async_test_timeout, hs, hp]

/-- Witness for C9 at concrete environments: unset, empty, unparseable
and parseable. -/
theorem get_async_test_timeout_total_witness :
    _get_async_test_timeout none = { mant := 5, exp := 0 }
    ∧ _get_async_test_timeout (some "") = { mant := 5, exp := 0 }
    ∧ _get_async_test_timeout (some "not a float") = { mant := 5, exp := 0 }
    ∧ _get_async_test_timeout (some "0.75") = { mant := 75, exp := -2 } :=
  ⟨(get_async_test_timeout_total none).1 rfl,
   (get_async_test_timeout_total (some "")).2.1 "" rfl (by decide),
   (get_async_test_timeout_total (some "not a float")).2.1 "not a float" rfl (by decide),
   (get_async_test_timeout_total (some "0.75")).2.2.1 "0.75" { mant := 75, exp := -2 }
     rfl (by decide)⟩

/-- C3: `with_timeout d future` returns a fresh pending future chained
to the input, with a one-shot timer registered at deadline `d`; when
the input settles (success or failure) the result carries the same
outcome and the timer is removed; when the timer fires before the
input settles it rejects the result with a `TimeoutError`; and along
every event sequence, once the input has settled no timer remains
registered. -/
theorem with_timeout_contract (d : Dec) (o : Outcome) (es : List WTEvent) :
    (with_timeout d none).resultDone = none
    ∧ (with_timeout d none).timerRegistered = true
    ∧ (with_timeout d none).timerDeadline = d
    ∧ runWT (with_timeout d none) [WTEvent.settleInput o] =
      { inputDone := some o, resultDone := some o,
        timerRegistered := false, timerDeadline := d }
    ∧ (runWT (with_timeout d none) [WTEvent.fireTimer]).resultDone =
      some (Outcome.err (Err.timeoutError "Timeout"))
    ∧ ((runWT (with_timeout d none) es).inputDone.isSome = true →
      (runWT (with_timeout d none) es).timerRegistered = false) := by
  refine ⟨rfl, rfl, rfl, ?_, ?_, ?_⟩
  · simp [runWT, wtStep, with_timeout]
  · simp [runWT, wtStep, with_timeout]
  · refine runWT_settled_timer_off es (with_timeout d none) ?_
    intro hcontra
    simp [with_timeout] at hcontra

/-- Witness for C3: after the input settles with a failure, the result
future holds that failure and the timer is gone. -/
theorem with_timeout_contract_witness :
    (runWT (with_timeout { mant := 1, exp := 0 } none)
      [WTEvent.settleInput (Outcome.err (Err.exn 7))]).timerRegistered = false :=
  (with_timeout_contract { mant := 1, exp := 0 } (Outcome.err (Err.exn 7))
    [WTEvent.settleInput (Outcome.err (Err.exn 7))]).2.2.2.2.2 (by decide)

/-- C4: with `run_sync` defaulting to `true` when absent from the
marker kwargs, the `run_sync=False` branch wraps the body future with
the timeout primitive, starts the loop with the stop continuation
registered; the loop can stop only once the bounded future has
settled, and the outcome read afterwards is exactly the bounded
future's settlement — the test body's own outcome when it settled
first, the `TimeoutError` when the timer fired first. -/
theorem run_sync_false_dispatch (kwargs : List (String × PyVal)) (d : Dec)
    (o : Outcome) (es : List BEvent) :
    (lookupKey kwargs "run_sync" = none → run_sync_value kwargs = PyVal.bool true)
    ∧ (pytest_pyfunc_call_run_sync_false d).wt = with_timeout d none
    ∧ (pytest_pyfunc_call_run_sync_false d).running = true
    ∧ ((runB (pytest_pyfunc_call_run_sync_false d) es).running = false →
      ((runB (pytest_pyfunc_call_run_sync_false d) es).wt.resultDone).isSome = true)
    ∧ modeB_result d [BEvent.loopEvent (WTEvent.settleInput o), BEvent.stopCallback] = some o
    ∧ modeB_result d [BEvent.loopEvent WTEvent.fireTimer, BEvent.stopCallback] =
      some (Outcome.err (Err.timeoutError "Timeout")) := by
  refine ⟨?_, rfl, rfl, ?_, ?_, ?_⟩
  · intro h
    simp [run_sync_value, dictGet, h]
  · refine runB_inv es (pytest_pyfunc_call_run_sync_false d) ?_
    intro hcontra
    simp [pytest_pyfunc_call_run_sync_false] at hcontra
  · simp [modeB_result, runB, bStep, wtStep, pytest_pyfunc_call_run_sync_false, with_timeout]
  · simp [modeB_result, runB, bStep, wtStep, pytest_pyfunc_call_run_sync_false, with_timeout]

/-- Witness for C4: absent `run_sync` key defaults to `true`, and a
timer firing before the body settles makes the read outcome the
`TimeoutError`. -/
theorem run_sync_false_dispatch_witness :
    run_sync_value [] = PyVal.bool true
    ∧ modeB_result { mant := 1, exp := 0 }
      [BEvent.loopEvent WTEvent.fireTimer, BEvent.stopCallback] =
      some (Outcome.err (Err.timeoutError "Timeout")) :=
  ⟨(run_sync_false_dispatch [] { mant := 1, exp := 0 } (Outcome.ok PyVal.pyNone) []).1 rfl,
   (run_sync_false_dispatch [] { mant := 1, exp := 0 } (Outcome.ok PyVal.pyNone) []).2.2.2.2.2⟩

/-- C5: the `io_loop` finalizer first uninstalls the loop as current,
then closes it (releasing file descriptors) exactly when it is not the
case that the global singleton is initialized and is this very
instance; an initialized singleton identical to the loop is never
closed. -/
theorem io_loop_teardown_guard (io_loop : ℕ) (w : LoopWorld) :
    (io_loop_finalizer io_loop w).currentLoop = none
    ∧ (w.singletonLoop = some io_loop →
      (io_loop_finalizer io_loop w).closedLoops = w.closedLoops)
    ∧ (w.singletonLoop ≠ some io_loop →
      (io_loop_finalizer io_loop w).closedLoops = io_loop :: w.closedLoops) := by
  refine ⟨?_, ?_, ?_⟩
  · simp only [io_loop_finalizer]
    split <;> rfl
  · intro h
    simp [io_loop_finalizer, h]
  · intro h
    rcases hs : w.singletonLoop with _ | l
    · simp [io_loop_finalizer, hs]
    · rw [hs] at h
      simp [io_loop_finalizer, hs, h]

/-- Witness for C5: a loop identical to the initialized singleton is
uninstalled but not closed; a distinct loop is closed. -/
theorem io_loop_teardown_guard_witness :
    (io_loop_finalizer 1 (LoopWorld.mk (some 1) (some 1) [])).closedLoops = []
    ∧ (io_loop_finalizer 2 (LoopWorld.mk (some 2) (some 1) [])).closedLoops = [2] :=
  ⟨(io_loop_teardown_guard 1 (LoopWorld.mk (some 1) (some 1) [])).2.1 rfl,
   (io_loop_teardown_guard 2 (LoopWorld.mk (some 2) (some 1) [])).2.2 (by decide)⟩

/-- C6: the `http_client` fixture binds its client to the server
fixture's loop, and its finalizer closes the client unless the global
singleton is initialized and is the client's loop — the same identity
guard as the `io_loop` finalizer. -/
theorem http_client_lifecycle (serverLoop : ℕ) (client : HTTPClient)
    (singletonLoop : Option ℕ) :
    (http_client_fixture serverLoop).io_loop = serverLoop
    ∧ (http_client_fixture serverLoop).closed = false
    ∧ (singletonLoop = some client.io_loop →
      http_client_finalizer client singletonLoop = client)
    ∧ (singletonLoop ≠ some client.io_loop →
      (http_client_finalizer client singletonLoop).closed = true) := by
  refine ⟨rfl, rfl, ?_, ?_⟩
  · intro h
    simp [http_client_finalizer, h]
  · intro h
    rcases hs : singletonLoop with _ | l
    · simp [http_client_finalizer, hs]
    · rw [hs] at h
      simp [http_client_finalizer, hs, h]

/-- Witness for C6: a client on the initialized singleton loop stays
open; a client on any other loop is closed. -/
theorem http_client_lifecycle_witness :
    http_client_finalizer { io_loop := 1, closed := false } (some 1) =
      { io_loop := 1, closed := false }
    ∧ (http_client_finalizer { io_loop := 2, closed := false } (some 1)).closed = true :=
  ⟨(http_client_lifecycle 1 { io_loop := 1, closed := false } (some 1)).2.2.1 rfl,
   (http_client_lifecycle 1 { io_loop := 2, closed := false } (some 1)).2.2.2 (by decide)⟩

/-- C7: the derived port fixtures are pure projections — `http_port`
is the port component of the allocated `(socket, port)` pair, and
`base_url` is exactly the string `http://localhost:<port>`. -/
theorem port_fixture_projections (sock port : ℕ) :
    http_port (sock, port) = port
    ∧ base_url (http_port (sock, port)) = "http://localhost:" ++ toString port :=
  ⟨rfl, rfl⟩

/-- C10: the setup hook is idempotent; on a marked item each injected
fixture name is appended only when absent, so its multiplicity becomes
one when it was zero and is otherwise unchanged (in particular it
remains at most one when it started at most one, over any number of
runs); an unmarked item is left unchanged. -/
theorem runtest_setup_idempotent (item : Item) :
    pytest_runtest_setup (pytest_runtest_setup item) = pytest_runtest_setup item
    ∧ ("gen_test" ∈ item.keywords →
      (pytest_runtest_setup item).fixturenames.count "io_loop" =
        (if item.fixturenames.count "io_loop" = 0 then 1
         else item.fixturenames.count "io_loop")
      ∧ (pytest_runtest_setup item).fixturenames.count "_async_test_timeout_" =
        (if item.fixturenames.count "_async_test_timeout_" = 0 then 1
         else item.fixturenames.count "_async_test_timeout_"))
    ∧ ("gen_test" ∉ item.keywords → pytest_runtest_setup item = item) := by
  refine ⟨?_, ?_, ?_⟩
  · by_cases hk : "gen_test" ∈ item.keywords
    · have hk2 : "gen_test" ∈ (pytest_runtest_setup item).keywords := by
        rw [pytest_runtest_setup_keywords]
        exact hk
      obtain ⟨h1, h2⟩ := pytest_runtest_setup_mem hk
      exact pytest_runtest_setup_of_mem hk2 h1 h2
    · have h : pytest_runtest_setup item = item := by
        simp [pytest_runtest_setup, hk]
      simp only [h]
  · intro hk
    have eio : List.count "io_loop" ["_async_test_timeout_"] = 0 := by decide
    have eas : List.count "_async_test_timeout_" ["io_loop"] = 0 := by decide
    by_cases h1 : "io_loop" ∈ item.fixturenames <;>
      by_cases h2 : "_async_test_timeout_" ∈ item.fixturenames
    · have c1 : item.fixturenames.count "io_loop" ≠ 0 :=
        fun h => (List.count_eq_zero.mp h) h1
      have c2 : item.fixturenames.count "_async_test_timeout_" ≠ 0 :=
        fun h => (List.count_eq_zero.mp h) h2
      rw [pytest_runtest_setup_of_mem hk h1 h2, if_neg c1, if_neg c2]
      exact ⟨rfl, rfl⟩
    · have hf : (pytest_runtest_setup item).fixturenames =
          item.fixturenames ++ ["_async_test_timeout_"] := by
        simp [pytest_runtest_setup, hk, h1, h2]
      have c1 : item.fixturenames.count "io_loop" ≠ 0 :=
        fun h => (List.count_eq_zero.mp h) h1
      have c2 : item.fixturenames.count "_async_test_timeout_" = 0 :=
        List.count_eq_zero.mpr h2
      rw [hf, if_neg c1, if_pos c2]
      constructor
      · rw [List.count_append, eio, Nat.add_zero]
      · rw [List.count_append, c2]
        decide
    · have hf : (pytest_runtest_setup item).fixturenames =
          item.fixturenames ++ ["io_loop"] := by
        simp [pytest_runtest_setup, hk, h1, h2]
      have c1 : item.fixturenames.count "io_loop" = 0 :=
        List.count_eq_zero.mpr h1
      have c2 : item.fixturenames.count "_async_test_timeout_" ≠ 0 :=
        fun h => (List.count_eq_zero.mp h) h2
      rw [hf, if_pos c1, if_neg c2]
      constructor
      · rw [List.count_append, c1]
        decide
      · rw [List.count_append, eas, Nat.add_zero]
    · have hf : (pytest_runtest_setup item).fixturenames =
          item.fixturenames ++ ["io_loop"] ++ ["_async_test_timeout_"] := by
        simp [pytest_runtest_setup, hk, h1, h2]
      have c1 : item.fixturenames.count "io_loop" = 0 :=
        List.count_eq_zero.mpr h1
      have c2 : item.fixturenames.count "_async_test_timeout_" = 0 :=
        List.count_eq_zero.mpr h2
      rw [hf, if_pos c1, if_pos c2]
      constructor
      · rw [List.count_append, List.count_append, c1, eio]
        decide
      · rw [List.count_append, List.count_append, c2, eas]
        decide
  · intro hk
    simp [pytest_runtest_setup, hk]

/-- Witness for C10 at a concrete marked item with an empty fixture
list: running the hook leaves `io_loop` with multiplicity one. -/
theorem runtest_setup_idempotent_witness :
    (pytest_runtest_setup (Item.mk ["gen_test"] [])).fixturenames.count "io_loop" =
      (if (Item.mk ["gen_test"] ([] : List String)).fixturenames.count "io_loop" = 0 then 1
       else (Item.mk ["gen_test"] ([] : List String)).fixturenames.count "io_loop") :=
  ((runtest_setup_idempotent (Item.mk ["gen_test"] [])).2.1 (by decide)).1

end PytestTornado
